import Mathlib

/-!
Verification of `obp/ope/meta_slate.py` (`SlateOffPolicyEvaluation`).

Shallow embedding conventions:
- A Python dict of numpy arrays (`bandit_feedback`) becomes a structure of
  `Option` fields; a missing dict key is `none` and a raw `d[k]` access on a
  missing key is a `keyError`.
- Python floats are modelled as rationals (`ℚ`); numpy integer arrays as
  `List Nat` / rationals as `List ℚ`.
- Fallible code returns `Except PyError`.  `RuntimeError` raised by the source
  is `PyError.runtimeError` (the specification calls it ConfigurationError),
  `ValueError` is `PyError.valueError` (the specification calls it
  InvalidArgumentError), attribute access on `None` is `PyError.attributeError`.
- External collaborators (`BaseSlateOffPolicyEstimator`, `SlateRegressionModel`)
  are structures of opaque pure functions, exactly the interface the core uses.
-/

deriving instance DecidableEq for Except

/-- Python-style errors produced on the modelled code paths. -/
inductive PyError where
  | keyError (key : String)
  | runtimeError (msg : String)
  | valueError (msg : String)
  | attributeError (msg : String)
  | typeError (msg : String)
  | zeroDivisionError
  deriving DecidableEq, Repr

/-- The logged feedback dict: each field is `some` iff the key is present. -/
structure BanditFeedback where
  n_rounds : Option Nat
  n_unique_action : Option Nat
  slate_id : Option (List Nat)
  position : Option (List Nat)
  reward : Option (List ℚ)
  context : Option (List ℚ)
  action : Option (List Nat)
  pscore : Option (List ℚ)
  pscore_item_position : Option (List ℚ)
  pscore_cascade : Option (List ℚ)
  deriving DecidableEq, Repr

/-- The estimator input bundle built by `_create_estimator_inputs`: logged
fields copied forward when present, the three evaluation-policy probability
arrays and the action distribution attached verbatim (absent = `none`), plus
the regression model output. -/
structure EstimatorInputs where
  slate_id : Option (List Nat)
  action : Option (List Nat)
  reward : Option (List ℚ)
  position : Option (List Nat)
  pscore : Option (List ℚ)
  pscore_item_position : Option (List ℚ)
  pscore_cascade : Option (List ℚ)
  evaluation_policy_pscore : Option (List ℚ)
  evaluation_policy_pscore_item_position : Option (List ℚ)
  evaluation_policy_pscore_cascade : Option (List ℚ)
  evaluation_policy_action_dist : Option (List ℚ)
  q_hat_for_counterfactual_actions : List ℚ
  deriving DecidableEq, Repr

/-- External estimator interface (`BaseSlateOffPolicyEstimator`): a name, a
point-estimate operation and an interval operation (mean, lower, upper). -/
structure SlateEstimator where
  estimator_name : String
  estimate_policy_value : EstimatorInputs → ℚ
  estimate_interval : EstimatorInputs → ℚ → Int → Option Nat → (ℚ × ℚ × ℚ)

/-- External regression model interface (`SlateRegressionModel.fit_predict`),
receiving (context, action, reward, pscore_cascade,
evaluation_policy_pscore_cascade, evaluation_policy_action_dist). -/
structure RegressionModel where
  fit_predict : List ℚ → List Nat → List ℚ → List ℚ →
    Option (List ℚ) → Option (List ℚ) → List ℚ

/-- State of a constructed `SlateOffPolicyEvaluation` object after
`__post_init__` ran successfully. -/
structure OPEState where
  bandit_feedback : BanditFeedback
  ope_estimators : List SlateEstimator
  base_regression_model : Option RegressionModel
  is_factorizable : Bool
  n_rounds : Nat
  len_list : Nat
  n_unique_action : Nat
  ope_estimators_ : List (String × SlateEstimator)

/-- Raw dict access `d[k]` on an optional field. -/
def getKey {α : Type} (v : Option α) (key : String) : Except PyError α :=
  match v with
  | none => .error (.keyError key)
  | some x => .ok x

/-- Python dict insertion `d[name] = est`: an existing key keeps its position
but its value is overwritten (last write wins). -/
def upsert (l : List (String × SlateEstimator)) (e : SlateEstimator) :
    List (String × SlateEstimator) :=
  match l with
  | [] => [(e.estimator_name, e)]
  | (n, e0) :: rest =>
    if n = e.estimator_name then (n, e) :: rest
    else (n, e0) :: upsert rest e

/-- The registry loop of `__post_init__`: `self.ope_estimators_[name] = est`
for each estimator in order. -/
def registerEstimators (es : List SlateEstimator) : List (String × SlateEstimator) :=
  es.foldl upsert []

/-- Message of the RuntimeError raised by the key-presence check
(apostrophes of the source message dropped, the named key is kept). -/
def missingKeyMsg (k : String) : String :=
  "Missing key of " ++ k ++ " in bandit_feedback."

/-- `SlateOffPolicyEvaluation.__post_init__` (meta_slate.py lines 125-136).
The derivations of `n_rounds`, `len_list` and `n_unique_action` access the
dict before the key-presence loop runs, exactly as in the source; note the
source derives `len_list` as `(bandit_feedback["slate_id"] == 0).sum()`,
a count over the slate_id column, and that the presence check for
`"slate_id"` is unreachable because line 128 already dereferenced it. -/
def postInit (fb : BanditFeedback) (ests : List SlateEstimator)
    (model : Option RegressionModel) (fact : Bool) : Except PyError OPEState :=
  match fb.n_rounds with
  | none => .error (.keyError "n_rounds")
  | some nR =>
    match fb.slate_id with
    | none => .error (.keyError "slate_id")
    | some sids =>
      match fb.n_unique_action with
      | none => .error (.keyError "n_unique_action")
      | some nU =>
        if fb.slate_id = none then .error (.runtimeError (missingKeyMsg "slate_id"))
        else if fb.position = none then .error (.runtimeError (missingKeyMsg "position"))
        else if fb.reward = none then .error (.runtimeError (missingKeyMsg "reward"))
        else .ok {
          bandit_feedback := fb
          ope_estimators := ests
          base_regression_model := model
          is_factorizable := fact
          n_rounds := nR
          len_list := sids.count 0
          n_unique_action := nU
          ope_estimators_ := registerEstimators ests }

/-- Message of the ValueError raised when all three evaluation-policy
probability arguments are absent. -/
def pscoreMissingMsg : String :=
  "one of evaluation_policy_pscore, evaluation_policy_pscore_item_position, or evaluation_policy_pscore_cascade must be given"

/-- Message of the AttributeError raised by `None.fit_predict`. -/
def noneTypeMsg : String :=
  "NoneType object has no attribute fit_predict"

/-- `SlateOffPolicyEvaluation._create_estimator_inputs` (lines 138-191).
Order of effects follows the source: the all-absent probability check, then
the attribute access `self.base_regression_model.fit_predict` (AttributeError
when the model is `None`, before arguments are evaluated), then the keyword
argument dict accesses `context`, `action`, `reward`, `pscore_cascade` left
to right (KeyError on the first absent one), then the call itself. -/
def create_estimator_inputs (st : OPEState)
    (ep epi epc ead : Option (List ℚ)) : Except PyError EstimatorInputs :=
  if ep = none ∧ epi = none ∧ epc = none then
    .error (.valueError pscoreMissingMsg)
  else
    match st.base_regression_model with
    | none => .error (.attributeError noneTypeMsg)
    | some m =>
      match st.bandit_feedback.context, st.bandit_feedback.action,
            st.bandit_feedback.reward, st.bandit_feedback.pscore_cascade with
      | none, _, _, _ => .error (.keyError "context")
      | some _, none, _, _ => .error (.keyError "action")
      | some _, some _, none, _ => .error (.keyError "reward")
      | some _, some _, some _, none => .error (.keyError "pscore_cascade")
      | some ctx, some act, some rew, some pc =>
        .ok {
          slate_id := st.bandit_feedback.slate_id
          action := st.bandit_feedback.action
          reward := st.bandit_feedback.reward
          position := st.bandit_feedback.position
          pscore := st.bandit_feedback.pscore
          pscore_item_position := st.bandit_feedback.pscore_item_position
          pscore_cascade := st.bandit_feedback.pscore_cascade
          evaluation_policy_pscore := ep
          evaluation_policy_pscore_item_position := epi
          evaluation_policy_pscore_cascade := epc
          evaluation_policy_action_dist := ead
          q_hat_for_counterfactual_actions := m.fit_predict ctx act rew pc epc ead }

/-- `SlateOffPolicyEvaluation.estimate_policy_values` (lines 193-235). -/
def estimate_policy_values (st : OPEState) (ep epi epc ead : Option (List ℚ)) :
    Except PyError (List (String × ℚ)) :=
  match create_estimator_inputs st ep epi epc ead with
  | .error e => .error e
  | .ok inputs =>
    .ok (st.ope_estimators_.map (fun p => (p.1, p.2.estimate_policy_value inputs)))

/-- Message of the ValueError for an out-of-range significance level. -/
def alphaRangeMsg : String :=
  "alpha must be in the open interval between 0 and 1"

/-- Message of the ValueError for a non-positive bootstrap sample count. -/
def nBootstrapMsg : String :=
  "n_bootstrap_samples must be a positive integer"

/-- Modelled from the spec: `check_confidence_interval_arguments` is defined
in `obp/utils.py`, which is not part of the given source tree; only its call
site (meta_slate.py line 280) is.  Spec sections 4.5 and 8: fails with
InvalidArgumentError for `alpha <= 0`, `alpha >= 1`, or
`n_bootstrap_samples <= 0`; `random_state` is an optional integer. -/
def check_confidence_interval_arguments (alpha : ℚ) (n_bootstrap_samples : Int)
    (_random_state : Option Nat) : Except PyError Unit :=
  if alpha ≤ 0 ∨ 1 ≤ alpha then .error (.valueError alphaRangeMsg)
  else if n_bootstrap_samples ≤ 0 then .error (.valueError nBootstrapMsg)
  else .ok ()

/-- `SlateOffPolicyEvaluation.estimate_intervals` (lines 237-300): argument
validation first, then input assembly, then the estimator loop. -/
def estimate_intervals (st : OPEState) (ep epi epc ead : Option (List ℚ))
    (alpha : ℚ) (n_bootstrap_samples : Int) (random_state : Option Nat) :
    Except PyError (List (String × (ℚ × ℚ × ℚ))) :=
  match check_confidence_interval_arguments alpha n_bootstrap_samples random_state with
  | .error e => .error e
  | .ok _ =>
    match create_estimator_inputs st ep epi epc ead with
    | .error e => .error e
    | .ok inputs =>
      .ok (st.ope_estimators_.map
        (fun p => (p.1, p.2.estimate_interval inputs alpha n_bootstrap_samples random_state)))

/-- Division as a fallible operation, to make "never raises a division
error" a meaningful statement about the guarded division in
`summarize_off_policy_estimates`. -/
def pyDiv (a b : ℚ) : Except PyError ℚ :=
  if b = 0 then .error .zeroDivisionError else .ok (a / b)

/-- Behavior policy value (lines 364-367):
`bandit_feedback["reward"].sum() / np.unique(bandit_feedback["slate_id"]).shape[0]`;
`reward` is accessed first, then `slate_id`; the number of distinct slate ids
is the length of the deduplicated list.  The definition assumes at least one
logged row (the validity invariant of the spec); numpy would produce a float
NaN on the empty division, which has no rational counterpart. -/
def policy_value_of_behavior_policy (fb : BanditFeedback) : Except PyError ℚ :=
  match fb.reward, fb.slate_id with
  | none, _ => .error (.keyError "reward")
  | some _, none => .error (.keyError "slate_id")
  | some rew, some sids => .ok (rew.sum / (sids.dedup.length : ℚ))

/-- The relative-value column loop: each point estimate divided by the
behavior policy value, kept as `some` (the `none` alternative is the NaN
sentinel of the other branch). -/
def relRows (pv : List (String × ℚ)) (bpv : ℚ) :
    Except PyError (List (String × ℚ × Option ℚ)) :=
  match pv with
  | [] => .ok []
  | p :: rest =>
    match pyDiv p.2 bpv with
    | .error e => .error e
    | .ok r =>
      match relRows rest bpv with
      | .error e => .error e
      | .ok rows => .ok ((p.1, p.2, some r) :: rows)

/-- `SlateOffPolicyEvaluation.summarize_off_policy_estimates` (lines 302-378).
Returns the point-value table rows (name, estimated_policy_value,
relative_estimated_policy_value with `none` as the NaN sentinel), whether the
non-positive-behavior-value warning was logged, and the interval table. -/
def summarize_off_policy_estimates (st : OPEState)
    (ep epi epc ead : Option (List ℚ)) (alpha : ℚ)
    (n_bootstrap_samples : Int) (random_state : Option Nat) :
    Except PyError (List (String × ℚ × Option ℚ) × Bool × List (String × (ℚ × ℚ × ℚ))) :=
  match estimate_policy_values st ep epi epc ead with
  | .error e => .error e
  | .ok pv =>
    match estimate_intervals st ep epi epc ead alpha n_bootstrap_samples random_state with
    | .error e => .error e
    | .ok iv =>
      match policy_value_of_behavior_policy st.bandit_feedback with
      | .error e => .error e
      | .ok bpv =>
        if bpv ≤ 0 then .ok (pv.map (fun p => (p.1, p.2, (none : Option ℚ))), true, iv)
        else
          match relRows pv bpv with
          | .error e => .error e
          | .ok rows => .ok (rows, false, iv)

/-- Message of the ValueError for an unknown metric name
(apostrophes of the source message dropped). -/
def metricMsg (m : String) : String :=
  "metric must be either relative-ee or se, but " ++ m ++ " is given"

/-- Message of the ValueError for a zero ground truth under relative-ee. -/
def gtZeroMsg : String :=
  "ground_truth_policy_value must be non-zero when metric is relative-ee"

/-- `SlateOffPolicyEvaluation.evaluate_performance_of_estimators` (lines
480-561).  `check_scalar(ground_truth_policy_value, ..., float)` always
passes here since the ground truth is modelled as a rational (a float).
The metric checks run before input assembly; the per-estimator value is
`abs((estimate - gt) / gt)` for relative-ee and `(estimate - gt) ^ 2` for
se, exactly as computed at lines 554-560. -/
def evaluate_performance_of_estimators (st : OPEState) (gt : ℚ)
    (ep epi epc ead : Option (List ℚ)) (metric : String) :
    Except PyError (List (String × ℚ)) :=
  if ¬(metric = "relative-ee" ∨ metric = "se") then
    .error (.valueError (metricMsg metric))
  else if metric = "relative-ee" ∧ gt = 0 then
    .error (.valueError gtZeroMsg)
  else
    match create_estimator_inputs st ep epi epc ead with
    | .error e => .error e
    | .ok inputs =>
      .ok (st.ope_estimators_.map (fun p =>
        if metric = "relative-ee" then
          (p.1, |(p.2.estimate_policy_value inputs - gt) / gt|)
        else
          (p.1, (p.2.estimate_policy_value inputs - gt) ^ 2)))

/-- `SlateOffPolicyEvaluation.summarize_estimators_comparison` (lines
563-613).  The source call at lines 603-612 forwards the ground truth, the
three probability arrays and the metric but omits the
`evaluation_policy_action_dist` keyword, so the inner call receives its
default `None`; the parameter is accepted and dropped. -/
def summarize_estimators_comparison (st : OPEState) (gt : ℚ)
    (ep epi epc : Option (List ℚ)) (_ead : Option (List ℚ)) (metric : String) :
    Except PyError (List (String × ℚ)) :=
  evaluate_performance_of_estimators st gt ep epi epc none metric

/-- Recognizer of the ValueError class (the InvalidArgumentError of the
specification taxonomy). -/
def isInvalidArgumentError {α : Type} : Except PyError α → Bool
  | .error (.valueError _) => true
  | _ => false

/-- Canonical valid slate_id column: rounds 0..R-1, each contributing a
contiguous block of L rows with that slate id. -/
def canonicalSlateIds : Nat → Nat → List Nat
  | 0, _ => []
  | R + 1, L => canonicalSlateIds R L ++ List.replicate L R

/-- Canonical valid position column: each round contributes positions
0..L-1 in order. -/
def canonicalPositions : Nat → Nat → List Nat
  | 0, _ => []
  | R + 1, L => canonicalPositions R L ++ List.range L

/-- Valid logged feedback in the sense of the spec data-model invariant:
R rounds of L contiguous rows each, slate ids partitioning the rows into
equal contiguous groups, positions cycling 0..L-1, an aligned reward column,
and the summary keys present. -/
def ValidFeedback (fb : BanditFeedback) (R L : Nat) : Prop :=
  0 < R ∧ 0 < L ∧
  fb.n_rounds = some R ∧
  fb.slate_id = some (canonicalSlateIds R L) ∧
  fb.position = some (canonicalPositions R L) ∧
  fb.reward.isSome = true ∧
  (fb.reward.getD []).length = R * L ∧
  fb.n_unique_action.isSome = true

instance (fb : BanditFeedback) (R L : Nat) : Decidable (ValidFeedback fb R L) := by
  unfold ValidFeedback; infer_instance

/-- Concrete valid logged feedback: 2 rounds of 3 positions each. -/
def fbW : BanditFeedback where
  n_rounds := some 2
  n_unique_action := some 4
  slate_id := some [0, 0, 0, 1, 1, 1]
  position := some [0, 1, 2, 0, 1, 2]
  reward := some [1, 0, 1, 0, 1, 1]
  context := some [1, 2]
  action := some [0, 1, 2, 3, 0, 1]
  pscore := some [1/2, 1/2, 1/2, 1/3, 1/3, 1/3]
  pscore_item_position := some [1/4, 1/4, 1/4, 1/4, 1/4, 1/4]
  pscore_cascade := some [1/2, 1/4, 1/8, 1/3, 1/9, 1/27]

/-- The same feedback with the `slate_id` key removed. -/
def fbNoSlateId : BanditFeedback := { fbW with slate_id := none }

/-- A concrete estimator whose point estimate is the constant 1. -/
def estA : SlateEstimator where
  estimator_name := "est_a"
  estimate_policy_value := fun _ => 1
  estimate_interval := fun _ _ _ _ => (1, 0, 2)

/-- A concrete estimator whose point estimate is the constant 0. -/
def est0 : SlateEstimator where
  estimator_name := "e0"
  estimate_policy_value := fun _ => 0
  estimate_interval := fun _ _ _ _ => (0, 0, 0)

/-- A concrete regression model returning an empty counterfactual table. -/
def rmW : RegressionModel where
  fit_predict := fun _ _ _ _ _ _ => []

/-- The object state built from `fbW`, one estimator `estA` and model `rmW`,
exactly as `postInit` produces it. -/
def stWM : OPEState where
  bandit_feedback := fbW
  ope_estimators := [estA]
  base_regression_model := some rmW
  is_factorizable := false
  n_rounds := 2
  len_list := 3
  n_unique_action := 4
  ope_estimators_ := [("est_a", estA)]

/-- The object state built from `fbW` with `base_regression_model` left at
its default `None`. -/
def stN : OPEState := { stWM with base_regression_model := none }

/-- The object state built from `fbW`, the zero estimator and model `rmW`. -/
def stZ : OPEState :=
  { stWM with
    ope_estimators := [est0]
    ope_estimators_ := [("e0", est0)] }

/-- The estimator input bundle `create_estimator_inputs` assembles on `stZ`
with only `evaluation_policy_pscore = [1]` supplied. -/
def inpZ : EstimatorInputs where
  slate_id := some [0, 0, 0, 1, 1, 1]
  action := some [0, 1, 2, 3, 0, 1]
  reward := some [1, 0, 1, 0, 1, 1]
  position := some [0, 1, 2, 0, 1, 2]
  pscore := some [1/2, 1/2, 1/2, 1/3, 1/3, 1/3]
  pscore_item_position := some [1/4, 1/4, 1/4, 1/4, 1/4, 1/4]
  pscore_cascade := some [1/2, 1/4, 1/8, 1/3, 1/9, 1/27]
  evaluation_policy_pscore := some [1]
  evaluation_policy_pscore_item_position := none
  evaluation_policy_pscore_cascade := none
  evaluation_policy_action_dist := none
  q_hat_for_counterfactual_actions := []

theorem canonicalSlateIds_length (R L : Nat) :
    (canonicalSlateIds R L).length = R * L := by
  induction R with
  | zero => simp [canonicalSlateIds]
  | succ n ih => simp [canonicalSlateIds, ih, Nat.succ_mul]

theorem canonicalSlateIds_count_zero (R L : Nat) :
    (canonicalSlateIds (R + 1) L).count 0 = L := by
  induction R with
  | zero => simp [canonicalSlateIds]
  | succ n ih =>
    rw [show canonicalSlateIds (n + 1 + 1) L
          = canonicalSlateIds (n + 1) L ++ List.replicate L (n + 1) from rfl]
    rw [List.count_append, ih, List.count_replicate]
    simp

theorem relRows_map_proj (pv : List (String × ℚ)) :
    ∀ (b : ℚ) (rows : List (String × ℚ × Option ℚ)),
      relRows pv b = .ok rows → rows.map (fun r => (r.1, r.2.1)) = pv := by
  induction pv with
  | nil =>
    intro b rows h
    simp [relRows] at h
    simp [← h]
  | cons p rest ih =>
    intro b rows h
    rw [relRows] at h
    cases hd : pyDiv p.2 b with
    | error e => rw [hd] at h; exact absurd h (by simp)
    | ok r =>
      rw [hd] at h
      cases ht : relRows rest b with
      | error e => rw [ht] at h; exact absurd h (by simp)
      | ok rows0 =>
        rw [ht] at h
        simp only [Except.ok.injEq] at h
        subst h
        simp [ih b rows0 ht]

theorem relRows_of_ne_zero (b : ℚ) (hb : b ≠ 0) (pv : List (String × ℚ)) :
    relRows pv b = .ok (pv.map (fun p => (p.1, p.2, some (p.2 / b)))) := by
  induction pv with
  | nil => simp [relRows]
  | cons p rest ih => simp [relRows, pyDiv, hb, ih]

theorem postInit_base_regression_model {fb : BanditFeedback}
    {ests : List SlateEstimator} {model : Option RegressionModel} {fact : Bool}
    {st : OPEState} (h : postInit fb ests model fact = .ok st) :
    st.base_regression_model = model := by
  rw [postInit] at h
  cases h1 : fb.n_rounds with
  | none => simp [h1] at h
  | some nR =>
    cases h2 : fb.slate_id with
    | none => simp [h1, h2] at h
    | some sids =>
      cases h3 : fb.n_unique_action with
      | none => simp [h1, h2, h3] at h
      | some nU =>
        simp only [h1, h2, h3, reduceCtorEq, if_false] at h
        split at h
        · exact absurd h (by simp)
        · split at h
          · exact absurd h (by simp)
          · simp only [Except.ok.injEq] at h
            rw [← h]

theorem create_estimator_inputs_none_model {st : OPEState}
    (hm : st.base_regression_model = none) {ep epi epc ead : Option (List ℚ)}
    (hps : ¬(ep = none ∧ epi = none ∧ epc = none)) :
    create_estimator_inputs st ep epi epc ead = .error (.attributeError noneTypeMsg) := by
  rw [create_estimator_inputs, if_neg hps, hm]

/-- C1, as stated, is false on the code: on the valid 2-round, 3-position
feedback `fbW`, construction derives `len_list = 3` (the source counts rows
with `slate_id == 0`, meta_slate.py line 128), while the count of rows whose
position field is 0 is 2, so the derived `len_list` differs from the claimed
count. -/
theorem c1_len_list_position_count_counterexample :
    Except.map OPEState.len_list (postInit fbW [] none false)
        ≠ .ok ((fbW.position.getD []).count 0) ∧
    Except.map OPEState.len_list (postInit fbW [] none false) = .ok 3 ∧
    (fbW.position.getD []).count 0 = 2 := by
  refine ⟨?_, rfl, rfl⟩
  intro h
  rw [show Except.map OPEState.len_list (postInit fbW [] none false) = .ok 3 from rfl] at h
  rw [show (fbW.position.getD []).count 0 = 2 from rfl] at h
  exact absurd h (by decide)

/-- C1 (amended): for every valid logged feedback dataset (R rounds of L
contiguous rows each), the `len_list` scalar derived at construction of
`SlateOffPolicyEvaluation` equals the count of rows whose slate_id field is
0 — which is the slate length L, not the count of rows with position 0 —
and `n_rounds * len_list` equals the total row count. -/
theorem c1_len_list_amended (fb : BanditFeedback) (R L : Nat)
    (ests : List SlateEstimator) (model : Option RegressionModel) (fact : Bool)
    (hv : ValidFeedback fb R L) :
    Except.map (fun st => (st.len_list, st.n_rounds * st.len_list))
        (postInit fb ests model fact)
      = .ok (L, R * L) ∧
    (canonicalSlateIds R L).length = R * L := by
  obtain ⟨hR, _hL, hnr, hsid, hpos, hrs, _hrl, hnu⟩ := hv
  obtain ⟨nu, hnu2⟩ := Option.isSome_iff_exists.mp hnu
  obtain ⟨rew, hrew⟩ := Option.isSome_iff_exists.mp hrs
  refine ⟨?_, canonicalSlateIds_length R L⟩
  obtain ⟨R0, rfl⟩ := Nat.exists_eq_succ_of_ne_zero (Nat.pos_iff_ne_zero.mp hR)
  rw [postInit]
  simp only [hnr, hsid, hnu2, hrew, hpos, reduceCtorEq, if_false]
  simp only [Except.map, canonicalSlateIds_count_zero R0 L]

/-- C2 is right and the code is wrong: on feedback missing only the
`slate_id` key, construction fails at the `len_list` derivation
(meta_slate.py line 128) with a KeyError, not with the RuntimeError naming
the missing key; the presence check for `slate_id` at lines 131-133 is
unreachable.  This theorem evaluates the code at the failing input and pins
the raised error. -/
theorem c2_missing_slate_id_keyerror :
    postInit fbNoSlateId [] none false = .error (.keyError "slate_id") := rfl

theorem c1_len_list_amended_witness :
    Except.map (fun st => (st.len_list, st.n_rounds * st.len_list))
        (postInit fbW [] none false) = .ok (3, 2 * 3) ∧
    (canonicalSlateIds 2 3).length = 2 * 3 :=
  c1_len_list_amended fbW 2 3 [] none false (by decide)

theorem create_not_invalid {st : OPEState} {ep epi epc ead : Option (List ℚ)}
    (h : ¬(ep = none ∧ epi = none ∧ epc = none)) :
    isInvalidArgumentError (create_estimator_inputs st ep epi epc ead) = false := by
  rw [create_estimator_inputs, if_neg h]
  rcases st.base_regression_model with _ | m
  · rfl
  · rcases st.bandit_feedback.context with _ | ctx <;>
      rcases st.bandit_feedback.action with _ | act <;>
      rcases st.bandit_feedback.reward with _ | rew <;>
      rcases st.bandit_feedback.pscore_cascade with _ | pc <;> rfl

theorem epv_isInvalid (st : OPEState) (ep epi epc ead : Option (List ℚ)) :
    isInvalidArgumentError (estimate_policy_values st ep epi epc ead)
      = isInvalidArgumentError (create_estimator_inputs st ep epi epc ead) := by
  rw [estimate_policy_values]
  cases hc : create_estimator_inputs st ep epi epc ead with
  | error e => cases e <;> rfl
  | ok inputs => rfl

/-- C3: `_create_estimator_inputs` fails with an InvalidArgumentError
(ValueError, meta_slate.py lines 146-153) exactly when all three of
`evaluation_policy_pscore`, `evaluation_policy_pscore_item_position` and
`evaluation_policy_pscore_cascade` are absent; when at least one is
supplied that check passes (the call may still fail later, but never with
a ValueError).  The public `estimate_policy_values` inherits the same
equivalence. -/
theorem c3_pscore_check_iff (st : OPEState) (ep epi epc ead : Option (List ℚ)) :
    (isInvalidArgumentError (create_estimator_inputs st ep epi epc ead) = true
      ↔ (ep = none ∧ epi = none ∧ epc = none))
    ∧ ((ep = none ∧ epi = none ∧ epc = none) →
        create_estimator_inputs st ep epi epc ead = .error (.valueError pscoreMissingMsg))
    ∧ (isInvalidArgumentError (estimate_policy_values st ep epi epc ead) = true
      ↔ (ep = none ∧ epi = none ∧ epc = none)) := by
  have hkey : isInvalidArgumentError (create_estimator_inputs st ep epi epc ead) = true
      ↔ (ep = none ∧ epi = none ∧ epc = none) := by
    constructor
    · intro h
      by_contra hall
      rw [create_not_invalid hall] at h
      exact absurd h (by simp)
    · intro hall
      rw [create_estimator_inputs, if_pos hall]
      rfl
  refine ⟨hkey, fun hall => ?_, ?_⟩
  · rw [create_estimator_inputs, if_pos hall]
  · rw [epv_isInvalid]
    exact hkey

theorem c3_pscore_check_iff_witness :
    isInvalidArgumentError (create_estimator_inputs stWM none none none none) = true ∧
    isInvalidArgumentError (create_estimator_inputs stWM (some [1]) none none none) = false := by
  have h := c3_pscore_check_iff stWM none none none none
  have h2 := c3_pscore_check_iff stWM (some [1]) none none none
  refine ⟨h.1.mpr ⟨rfl, rfl, rfl⟩, Bool.eq_false_iff.mpr (fun hb => ?_)⟩
  exact absurd (h2.1.mp hb).1 (by simp)

/-- C4: when `base_regression_model` is left at its default `None`, every
public estimation call that passes the probability-presence check still
fails with the AttributeError raised by `self.base_regression_model
.fit_predict` (meta_slate.py line 179) during input assembly, before any
estimator runs: the conclusion holds for every registered estimator list,
so no estimator output can influence it.  The regression model is required
in practice despite its Optional type. -/
theorem c4_none_regression_model_fails (fb : BanditFeedback)
    (ests : List SlateEstimator) (fact : Bool) (st : OPEState)
    (ep epi epc ead : Option (List ℚ)) (alpha : ℚ) (nbs : Int)
    (rs : Option Nat) (gt : ℚ)
    (hpost : postInit fb ests none fact = .ok st)
    (hps : ¬(ep = none ∧ epi = none ∧ epc = none)) :
    estimate_policy_values st ep epi epc ead = .error (.attributeError noneTypeMsg) ∧
    (0 < alpha → alpha < 1 → 0 < nbs →
      estimate_intervals st ep epi epc ead alpha nbs rs
        = .error (.attributeError noneTypeMsg)) ∧
    evaluate_performance_of_estimators st gt ep epi epc ead "se"
      = .error (.attributeError noneTypeMsg) := by
  have hm := postInit_base_regression_model hpost
  have hc := @create_estimator_inputs_none_model st hm ep epi epc ead hps
  refine ⟨?_, ?_, ?_⟩
  · rw [estimate_policy_values, hc]
  · intro h1 h2 h3
    rw [estimate_intervals, check_confidence_interval_arguments,
      if_neg (by rw [not_or]; exact ⟨not_le.mpr h1, not_le.mpr h2⟩),
      if_neg (not_le.mpr h3), hc]
  · rw [evaluate_performance_of_estimators, if_neg (by simp),
      if_neg (fun h => absurd h.1 (by decide)), hc]

theorem c4_none_regression_model_fails_witness :
    estimate_policy_values stN (some [1]) none none none
      = .error (.attributeError noneTypeMsg) ∧
    estimate_intervals stN (some [1]) none none none (1/2) 100 none
      = .error (.attributeError noneTypeMsg) ∧
    evaluate_performance_of_estimators stN 0 (some [1]) none none none "se"
      = .error (.attributeError noneTypeMsg) := by
  have h := c4_none_regression_model_fails fbW [estA] false stN
    (some [1]) none none none (1/2) 100 none 0 rfl (by simp)
  exact ⟨h.1, h.2.1 (by norm_num) (by norm_num) (by norm_num), h.2.2⟩

theorem summarize_char (st : OPEState) (ep epi epc ead : Option (List ℚ))
    (alpha : ℚ) (nbs : Int) (rs : Option Nat)
    (pv : List (String × ℚ)) (iv : List (String × (ℚ × ℚ × ℚ))) (bpv : ℚ)
    (hpv : estimate_policy_values st ep epi epc ead = .ok pv)
    (hiv : estimate_intervals st ep epi epc ead alpha nbs rs = .ok iv)
    (hb : policy_value_of_behavior_policy st.bandit_feedback = .ok bpv) :
    summarize_off_policy_estimates st ep epi epc ead alpha nbs rs
      = if bpv ≤ 0 then .ok (pv.map (fun p => (p.1, p.2, (none : Option ℚ))), true, iv)
        else
          match relRows pv bpv with
          | .error e => .error e
          | .ok rows => .ok (rows, false, iv) := by
  rw [summarize_off_policy_estimates, hpv, hiv, hb]

/-- C5: `summarize_off_policy_estimates` appends a
relative_estimated_policy_value column equal to each point estimate divided
by the behavior policy value `sum(reward) / number of distinct slate ids`
(meta_slate.py lines 364-377); whenever that value is non-positive the
column is the NaN sentinel (`none`) and the warning is logged (`true`), and
the operation never raises a division error. -/
theorem c5_summarize_relative_column (st : OPEState)
    (ep epi epc ead : Option (List ℚ)) (alpha : ℚ) (nbs : Int) (rs : Option Nat)
    (pv : List (String × ℚ)) (iv : List (String × (ℚ × ℚ × ℚ)))
    (rew : List ℚ) (sids : List Nat) (bpv : ℚ)
    (hrew : st.bandit_feedback.reward = some rew)
    (hsid : st.bandit_feedback.slate_id = some sids)
    (hbpv : rew.sum / (sids.dedup.length : ℚ) = bpv)
    (hpv : estimate_policy_values st ep epi epc ead = .ok pv)
    (hiv : estimate_intervals st ep epi epc ead alpha nbs rs = .ok iv) :
    (bpv ≤ 0 →
      summarize_off_policy_estimates st ep epi epc ead alpha nbs rs
        = .ok (pv.map (fun p => (p.1, p.2, (none : Option ℚ))), true, iv)) ∧
    (0 < bpv →
      summarize_off_policy_estimates st ep epi epc ead alpha nbs rs
        = .ok (pv.map (fun p => (p.1, p.2, some (p.2 / bpv))), false, iv)) ∧
    summarize_off_policy_estimates st ep epi epc ead alpha nbs rs
      ≠ .error .zeroDivisionError := by
  have hb : policy_value_of_behavior_policy st.bandit_feedback = .ok bpv := by
    rw [policy_value_of_behavior_policy, hrew, hsid, ← hbpv]
  have hs := summarize_char st ep epi epc ead alpha nbs rs pv iv bpv hpv hiv hb
  refine ⟨fun hle => ?_, fun hlt => ?_, ?_⟩
  · rw [hs, if_pos hle]
  · rw [hs, if_neg (not_le.mpr hlt), relRows_of_ne_zero bpv (ne_of_gt hlt) pv]
  · by_cases hle : bpv ≤ 0
    · rw [hs, if_pos hle]
      simp
    · rw [hs, if_neg hle, relRows_of_ne_zero bpv (ne_of_gt (not_le.mp hle)) pv]
      simp

theorem c5_summarize_relative_column_witness :
    summarize_off_policy_estimates stWM (some [1]) none none none (1/2) 100 none
      = .ok ([("est_a", (1 : ℚ))].map (fun p => (p.1, p.2, some (p.2 / 2))), false,
          [("est_a", ((1 : ℚ), (0 : ℚ), (2 : ℚ)))]) := by
  have h := c5_summarize_relative_column stWM (some [1]) none none none (1/2) 100 none
    [("est_a", 1)] [("est_a", (1, 0, 2))] [1, 0, 1, 0, 1, 1] [0, 0, 0, 1, 1, 1] 2
    rfl rfl
    (by rw [show ([0, 0, 0, 1, 1, 1] : List Nat).dedup = [0, 1] from by decide]
        norm_num)
    rfl
    (by rw [estimate_intervals,
          show check_confidence_interval_arguments (1/2) 100 none = .ok () from by
            rw [check_confidence_interval_arguments, if_neg (by norm_num), if_neg (by norm_num)]]
        rfl)
  exact h.2.1 (by norm_num)

/-- C6, as stated, is false on the code for a negative ground truth: with
the zero estimator and ground truth -1, the code (meta_slate.py lines
554-557) computes `abs((0 - (-1)) / (-1)) = 1`, while the claimed formula
`abs(estimated - groundTruth) / groundTruth` evaluates to `-1`. -/
theorem c6_relative_ee_sign_counterexample :
    evaluate_performance_of_estimators stZ (-1) (some [1]) none none none "relative-ee"
      = .ok [("e0", 1)] ∧
    |(0 : ℚ) - (-1)| / (-1) = -1 := by
  constructor
  · rw [evaluate_performance_of_estimators, if_neg (by norm_num), if_neg (by norm_num),
      show create_estimator_inputs stZ (some [1]) none none none = .ok inpZ from rfl]
    norm_num [est0, stZ, stWM]
  · norm_num

/-- C6 (amended): for every estimator and every finite ground truth,
`evaluate_performance_of_estimators` returns per estimator the value
`abs(estimated - groundTruth) / abs(groundTruth)` — i.e.
`abs((estimated - groundTruth) / groundTruth)` as the code computes it,
which differs from `abs(estimated - groundTruth) / groundTruth` when the
ground truth is negative — when metric is relative-ee (nonzero ground
truth), and `(estimated - groundTruth) ^ 2` when metric is se, including
ground truth 0 where it returns `estimated ^ 2`. -/
theorem c6_metric_values_amended (st : OPEState) (gt : ℚ)
    (ep epi epc ead : Option (List ℚ)) (inp : EstimatorInputs)
    (hin : create_estimator_inputs st ep epi epc ead = .ok inp) :
    (gt ≠ 0 →
      evaluate_performance_of_estimators st gt ep epi epc ead "relative-ee"
        = .ok (st.ope_estimators_.map
            (fun p => (p.1, |p.2.estimate_policy_value inp - gt| / |gt|)))) ∧
    evaluate_performance_of_estimators st gt ep epi epc ead "se"
      = .ok (st.ope_estimators_.map
          (fun p => (p.1, (p.2.estimate_policy_value inp - gt) ^ 2))) ∧
    (gt = 0 →
      evaluate_performance_of_estimators st gt ep epi epc ead "se"
        = .ok (st.ope_estimators_.map
            (fun p => (p.1, p.2.estimate_policy_value inp ^ 2)))) := by
  have hse : evaluate_performance_of_estimators st gt ep epi epc ead "se"
      = .ok (st.ope_estimators_.map
          (fun p => (p.1, (p.2.estimate_policy_value inp - gt) ^ 2))) := by
    rw [evaluate_performance_of_estimators, if_neg (by simp),
      if_neg (fun h => absurd h.1 (by decide)), hin]
    simp
  refine ⟨fun hgt => ?_, hse, fun h0 => ?_⟩
  · rw [evaluate_performance_of_estimators, if_neg (by simp),
      if_neg (fun h => absurd h.2 hgt), hin]
    simp [abs_div]
  · rw [hse, h0]
    simp

theorem c6_metric_values_amended_witness :
    evaluate_performance_of_estimators stZ 2 (some [1]) none none none "relative-ee"
      = .ok ([("e0", est0)].map
          (fun p => (p.1, |p.2.estimate_policy_value inpZ - 2| / |(2 : ℚ)|))) ∧
    evaluate_performance_of_estimators stZ 2 (some [1]) none none none "se"
      = .ok ([("e0", est0)].map
          (fun p => (p.1, (p.2.estimate_policy_value inpZ - 2) ^ 2))) := by
  have h := c6_metric_values_amended stZ 2 (some [1]) none none none inpZ rfl
  exact ⟨h.1 (by norm_num), h.2.1⟩

/-- C7: `evaluate_performance_of_estimators` fails with an
InvalidArgumentError whenever the metric is unknown or is relative-ee with
a zero ground truth (meta_slate.py lines 536-543); the failure precedes
input assembly and every estimator invocation: the second conjunct shows
the result does not depend on the object state (feedback, regression model,
estimators) or on the probability arguments at all. -/
theorem c7_evaluate_performance_validation (st st2 : OPEState) (gt : ℚ)
    (ep epi epc ead ep2 epi2 epc2 ead2 : Option (List ℚ)) (metric : String)
    (h : ¬(metric = "relative-ee" ∨ metric = "se")
        ∨ (metric = "relative-ee" ∧ gt = 0)) :
    isInvalidArgumentError
        (evaluate_performance_of_estimators st gt ep epi epc ead metric) = true ∧
    evaluate_performance_of_estimators st gt ep epi epc ead metric
      = evaluate_performance_of_estimators st2 gt ep2 epi2 epc2 ead2 metric := by
  rcases h with h | ⟨h1, h2⟩
  · constructor
    · rw [evaluate_performance_of_estimators, if_pos h]
      rfl
    · rw [evaluate_performance_of_estimators, if_pos h,
        show evaluate_performance_of_estimators st2 gt ep2 epi2 epc2 ead2 metric
            = .error (.valueError (metricMsg metric)) from by
          rw [evaluate_performance_of_estimators, if_pos h]]
  · subst h1
    subst h2
    constructor
    · rw [evaluate_performance_of_estimators, if_neg (by simp), if_pos ⟨rfl, rfl⟩]
      rfl
    · rw [evaluate_performance_of_estimators, if_neg (by simp), if_pos ⟨rfl, rfl⟩,
        show evaluate_performance_of_estimators st2 0 ep2 epi2 epc2 ead2 "relative-ee"
            = .error (.valueError gtZeroMsg) from by
          rw [evaluate_performance_of_estimators, if_neg (by simp), if_pos ⟨rfl, rfl⟩]]

theorem c7_evaluate_performance_validation_witness :
    isInvalidArgumentError
        (evaluate_performance_of_estimators stWM 1 (some [1]) none none none "sse") = true ∧
    isInvalidArgumentError
        (evaluate_performance_of_estimators stWM 0 (some [1]) none none none "relative-ee") = true := by
  have ha := c7_evaluate_performance_validation stWM stN 1
    (some [1]) none none none (some [1]) none none none "sse" (Or.inl (by decide))
  have hb := c7_evaluate_performance_validation stWM stN 0
    (some [1]) none none none (some [1]) none none none "relative-ee" (Or.inr ⟨rfl, rfl⟩)
  exact ⟨ha.1, hb.1⟩

/-- C8: `estimate_intervals` fails with an InvalidArgumentError for every
`alpha <= 0`, `alpha >= 1`, or non-positive `n_bootstrap_samples`; the
validation call (meta_slate.py line 280, `check_confidence_interval_arguments`
modelled from the spec) runs once, centrally, before input assembly
(including the regression fit) and before any estimator: the second
conjunct shows the result does not depend on the object state or the
probability arguments at all. -/
theorem c8_estimate_intervals_validation (st st2 : OPEState)
    (ep epi epc ead ep2 epi2 epc2 ead2 : Option (List ℚ))
    (alpha : ℚ) (nbs : Int) (rs rs2 : Option Nat)
    (h : alpha ≤ 0 ∨ 1 ≤ alpha ∨ nbs ≤ 0) :
    isInvalidArgumentError (estimate_intervals st ep epi epc ead alpha nbs rs) = true ∧
    estimate_intervals st ep epi epc ead alpha nbs rs
      = estimate_intervals st2 ep2 epi2 epc2 ead2 alpha nbs rs2 := by
  by_cases ha : alpha ≤ 0 ∨ 1 ≤ alpha
  · constructor
    · rw [estimate_intervals, check_confidence_interval_arguments, if_pos ha]
      rfl
    · rw [estimate_intervals, check_confidence_interval_arguments, if_pos ha,
        show estimate_intervals st2 ep2 epi2 epc2 ead2 alpha nbs rs2
            = .error (.valueError alphaRangeMsg) from by
          rw [estimate_intervals, check_confidence_interval_arguments, if_pos ha]]
  · have hn : nbs ≤ 0 := by
      rcases h with h | h | h
      · exact absurd (Or.inl h) ha
      · exact absurd (Or.inr h) ha
      · exact h
    constructor
    · rw [estimate_intervals, check_confidence_interval_arguments, if_neg ha, if_pos hn]
      rfl
    · rw [estimate_intervals, check_confidence_interval_arguments, if_neg ha, if_pos hn,
        show estimate_intervals st2 ep2 epi2 epc2 ead2 alpha nbs rs2
            = .error (.valueError nBootstrapMsg) from by
          rw [estimate_intervals, check_confidence_interval_arguments, if_neg ha, if_pos hn]]

theorem c8_estimate_intervals_validation_witness :
    isInvalidArgumentError
        (estimate_intervals stWM (some [1]) none none none 2 100 none) = true ∧
    isInvalidArgumentError
        (estimate_intervals stWM (some [1]) none none none (1/2) 0 none) = true := by
  have ha := c8_estimate_intervals_validation stWM stN
    (some [1]) none none none (some [1]) none none none 2 100 none none
    (Or.inr (Or.inl (by norm_num)))
  have hb := c8_estimate_intervals_validation stWM stN
    (some [1]) none none none (some [1]) none none none (1/2) 0 none none
    (Or.inr (Or.inr (by norm_num)))
  exact ⟨ha.1, hb.1⟩

/-- C9: extracting the estimated_policy_value column from the first table
returned by `summarize_off_policy_estimates` gives exactly the mapping
returned by `estimate_policy_values` with the same arguments (meta_slate.py
lines 344-352 build the table from that very call): summarization adds the
relative column but never alters point values.  All components of the
embedding are deterministic functions, matching the claim's premise. -/
theorem c9_summarize_point_values_roundtrip (st : OPEState)
    (ep epi epc ead : Option (List ℚ)) (alpha : ℚ) (nbs : Int) (rs : Option Nat)
    (rows : List (String × ℚ × Option ℚ)) (warn : Bool)
    (iv : List (String × (ℚ × ℚ × ℚ)))
    (h : summarize_off_policy_estimates st ep epi epc ead alpha nbs rs
        = .ok (rows, warn, iv)) :
    estimate_policy_values st ep epi epc ead
      = .ok (rows.map (fun r => (r.1, r.2.1))) := by
  cases hpv : estimate_policy_values st ep epi epc ead with
  | error e =>
    have hs : summarize_off_policy_estimates st ep epi epc ead alpha nbs rs = .error e := by
      rw [summarize_off_policy_estimates, hpv]
    rw [hs] at h
    exact absurd h (by simp)
  | ok pv =>
    cases hiv : estimate_intervals st ep epi epc ead alpha nbs rs with
    | error e =>
      have hs : summarize_off_policy_estimates st ep epi epc ead alpha nbs rs = .error e := by
        rw [summarize_off_policy_estimates, hpv, hiv]
      rw [hs] at h
      exact absurd h (by simp)
    | ok ivv =>
      cases hb : policy_value_of_behavior_policy st.bandit_feedback with
      | error e =>
        have hs : summarize_off_policy_estimates st ep epi epc ead alpha nbs rs = .error e := by
          rw [summarize_off_policy_estimates, hpv, hiv, hb]
        rw [hs] at h
        exact absurd h (by simp)
      | ok bpv =>
        have hs := summarize_char st ep epi epc ead alpha nbs rs pv ivv bpv hpv hiv hb
        by_cases hle : bpv ≤ 0
        · rw [hs, if_pos hle] at h
          simp only [Except.ok.injEq, Prod.mk.injEq] at h
          obtain ⟨hrows, _⟩ := h
          rw [← hrows, List.map_map]
          exact congrArg Except.ok (List.map_id pv).symm
        · rw [hs, if_neg hle,
            relRows_of_ne_zero bpv (ne_of_gt (not_le.mp hle)) pv] at h
          simp only [Except.ok.injEq, Prod.mk.injEq] at h
          obtain ⟨hrows, _⟩ := h
          rw [← hrows, List.map_map]
          exact congrArg Except.ok (List.map_id pv).symm

theorem c9_summarize_point_values_roundtrip_witness :
    estimate_policy_values stWM (some [1]) none none none
      = .ok ([("est_a", (1 : ℚ), some ((1 : ℚ) / 2))].map (fun r => (r.1, r.2.1))) := by
  refine c9_summarize_point_values_roundtrip stWM (some [1]) none none none
    (1/2) 100 none [("est_a", 1, some (1/2))] false [("est_a", (1, 0, 2))] ?_
  have hiv : estimate_intervals stWM (some [1]) none none none (1/2) 100 none
      = .ok [("est_a", (1, 0, 2))] := by
    rw [estimate_intervals,
      show check_confidence_interval_arguments (1/2) 100 none = .ok () from by
        rw [check_confidence_interval_arguments, if_neg (by norm_num), if_neg (by norm_num)]]
    rfl
  have hb : policy_value_of_behavior_policy stWM.bandit_feedback = .ok 2 := by
    rw [show policy_value_of_behavior_policy stWM.bandit_feedback
        = .ok (([1, 0, 1, 0, 1, 1] : List ℚ).sum
            / ((([0, 0, 0, 1, 1, 1] : List Nat).dedup.length : Nat) : ℚ)) from rfl,
      show ([0, 0, 0, 1, 1, 1] : List Nat).dedup = [0, 1] from by decide]
    norm_num
  rw [summarize_char stWM (some [1]) none none none (1/2) 100 none
      [("est_a", 1)] [("est_a", (1, 0, 2))] 2 rfl hiv hb,
    if_neg (by norm_num), relRows_of_ne_zero 2 (by norm_num) [("est_a", 1)]]
  norm_num

/-- C10: `summarize_estimators_comparison` never forwards
`evaluation_policy_action_dist` to `evaluate_performance_of_estimators`
(the keyword is omitted at meta_slate.py lines 603-612), so two calls
differing only in that argument return identical tables, and the inner
call always receives the action-distribution argument as absent. -/
theorem c10_comparison_ignores_action_dist (st : OPEState) (gt : ℚ)
    (ep epi epc d1 d2 : Option (List ℚ)) (metric : String) :
    summarize_estimators_comparison st gt ep epi epc d1 metric
      = summarize_estimators_comparison st gt ep epi epc d2 metric ∧
    summarize_estimators_comparison st gt ep epi epc d1 metric
      = evaluate_performance_of_estimators st gt ep epi epc none metric :=
  ⟨rfl, rfl⟩
